import Mathlib

/-!
Verification of the instance-lifecycle launcher of the cloud-music repository
(src/launcher.py, src/check_aws_readiness.py, src/config.py) as a shallow
embedding in Lean 4.  Each boto3 provider call is modelled by an explicit
outcome parameter (success with the provider's answer, a botocore ClientError
with its AWS error code and message, or another Python exception), and
provider-side account state (security groups, IAM entities, buckets,
instances) is passed explicitly.  Dollar rates are modelled as rationals.
-/

namespace CloudMusic

/-- Outcome of one boto3 API call: success carrying the provider's answer, a
botocore ClientError carrying the AWS error code and message, or any other
Python exception. -/
inductive ApiCall (α : Type) where
  | ok (a : α)
  | clientError (code : String) (msg : String)
  | exn (msg : String)
deriving Repr, DecidableEq

/-- EC2 instance lifecycle states, with the names the describe-instances
filter compares against. -/
inductive InstState where
  | pending
  | running
  | shuttingDown
  | terminated
  | stopping
  | stopped
deriving Repr, DecidableEq

/-- The instance-state-name string of each state. -/
def InstState.name : InstState → String
  | .pending => "pending"
  | .running => "running"
  | .shuttingDown => "shutting-down"
  | .terminated => "terminated"
  | .stopping => "stopping"
  | .stopped => "stopped"

/-- One EC2 instance as held in the provider account: identifier, state,
class, launch time, addresses, and its tag set. -/
structure Ec2Instance where
  instanceId : String
  state : InstState
  instanceType : String
  launchTime : Option Nat
  publicIp : Option String
  privateIp : Option String
  tags : List (String × String)
deriving Repr, DecidableEq

/-- The instance-state-name filter values check_existing_instances passes to
describe_instances (src/launcher.py lines 51-54). -/
def activeStateFilter : List String := ["running", "pending", "stopping"]

/-- Provider-side evaluation of the two filters describe_instances is called
with (src/launcher.py lines 45-56): tag Name equals the worker tag, and the
instance-state-name is one of activeStateFilter. -/
def matchesWorkerFilters (workerTag : String) (i : Ec2Instance) : Bool :=
  i.tags.contains ("Name", workerTag) && activeStateFilter.contains i.state.name

/-- The flattened record check_existing_instances builds for each matching
instance (src/launcher.py lines 61-68). -/
structure InstanceInfo where
  instance_id : String
  state : String
  instance_type : String
  launch_time : Option Nat
  public_ip : Option String
  private_ip : Option String
deriving Repr, DecidableEq

/-- The dictionary built from one instance (src/launcher.py lines 61-68). -/
def instanceInfoOf (i : Ec2Instance) : InstanceInfo :=
  { instance_id := i.instanceId
    state := i.state.name
    instance_type := i.instanceType
    launch_time := i.launchTime
    public_ip := i.publicIp
    private_ip := i.privateIp }

/-- src/launcher.py lines 37-77 (check_existing_instances).  On a successful
call the provider answers the filtered query over the account instances; a
ClientError and any other exception are both caught, logged, and an empty
list is returned. -/
def check_existing_instances (workerTag : String) (acct : List Ec2Instance)
    (call : ApiCall Unit) : List InstanceInfo :=
  match call with
  | .ok _ => (acct.filter (matchesWorkerFilters workerTag)).map instanceInfoOf
  | .clientError _ _ => []
  | .exn _ => []

/-- The AWS configuration record of src/config.py (AWSConfig). -/
structure AWSConfig where
  region : String
  ami_id : String
  iam_role_arn : String
  s3_bucket_name : String
  key_pair_name : String
  max_spot_price : Rat
  instance_type : String
  security_group_name : String
  worker_tag : String := "musicgen-batch-worker"
deriving Repr, DecidableEq

/-- The default configuration values of src/config.py when no environment
overrides are present (region us-east-1, max spot price 0.40,
instance type g4dn.xlarge, security group musicgen-worker-sg, worker tag
musicgen-batch-worker). -/
def defaultConfig : AWSConfig :=
  { region := "us-east-1"
    ami_id := "ami-test"
    iam_role_arn := "arn:aws:iam::123456789012:role/musicgen-role"
    s3_bucket_name := "musicgen-bucket"
    key_pair_name := "musicgen-batch-keypair"
    max_spot_price := (2 : Rat) / 5
    instance_type := "g4dn.xlarge"
    security_group_name := "musicgen-worker-sg" }

/-- src/launcher.py lines 97-127 (check_aws_permissions): the two probes run
in one try block, so the first failing probe determines the exception. -/
def effectiveProbe (p1 p2 : ApiCall Unit) : ApiCall Unit :=
  match p1 with
  | .ok _ => p2
  | e => e

/-- src/launcher.py lines 97-127.  A ClientError with code
UnauthorizedOperation or AccessDenied yields False; any other ClientError is
treated as inconclusive and yields True; a non-ClientError exception yields
False. -/
def check_aws_permissions (p1 p2 : ApiCall Unit) : Bool :=
  match effectiveProbe p1 p2 with
  | .ok _ => true
  | .clientError code _ =>
      if code == "UnauthorizedOperation" || code == "AccessDenied" then false
      else true
  | .exn _ => false

/-- One spot-price-history sample as returned by
describe_spot_price_history. -/
structure SpotPriceRecord where
  availabilityZone : String
  spotPrice : Rat
  timestamp : Nat
deriving Repr, DecidableEq

/-- The loop of get_current_spot_prices (src/launcher.py lines 146-156): a
dict insert that keeps the first sample seen for each zone, in response
order. -/
def zone_prices_loop :
    List (String × Rat) → List SpotPriceRecord → List (String × Rat)
  | acc, [] => acc
  | acc, r :: rest =>
      if acc.any (fun p => p.1 == r.availabilityZone) then
        zone_prices_loop acc rest
      else
        zone_prices_loop (acc ++ [(r.availabilityZone, r.spotPrice)]) rest

/-- src/launcher.py lines 129-171 (get_current_spot_prices): on success the
history is folded into a zone-to-price map; a ClientError and any other
exception both yield an empty result. -/
def get_current_spot_prices
    (call : ApiCall (List SpotPriceRecord)) : List (String × Rat) :=
  match call with
  | .ok history => zone_prices_loop [] history
  | .clientError _ _ => []
  | .exn _ => []

/-- Modelled from the spec (section 4.1 wording, for comparison with
get_current_spot_prices): the retained price per zone is the sample with the
latest timestamp among that zone's samples. -/
def spec_latest_price_for_zone
    (history : List SpotPriceRecord) (z : String) : Option Rat :=
  ((history.filter (fun r => r.availabilityZone == z)).foldl
    (fun best r =>
      match best with
      | none => some r
      | some b => if b.timestamp ≤ r.timestamp then some r else some b)
    none).map (fun r => r.spotPrice)

/-- One line of the per-zone price table of display_spot_prices
(src/launcher.py lines 183-191); numeric formatting is abbreviated to
toString. -/
def zone_price_line (maxSpotPrice : Rat) (zp : String × Rat) : String :=
  if zp.2 ≤ maxSpotPrice then
    "✅ " ++ zp.1 ++ " $" ++ toString zp.2 ++ "/hour (saves " ++
      toString (((maxSpotPrice - zp.2) / maxSpotPrice) * 100) ++ "%)"
  else
    "❌ " ++ zp.1 ++ " $" ++ toString zp.2 ++ "/hour (exceeds max by $" ++
      toString (zp.2 - maxSpotPrice) ++ ")"

/-- src/launcher.py lines 173-199 (display_spot_prices): the printed lines.
With an empty price map it prints the fallback pair naming the configured
maximum price and returns; otherwise the per-zone table, the configured
maximum, and the cost estimates. -/
def display_spot_prices (maxSpotPrice : Rat) (instanceType : String)
    (zone_prices : List (String × Rat)) : List String :=
  if zone_prices.isEmpty then
    [ "⚠️  Could not retrieve current spot prices."
    , "Proceeding with configured max price: $" ++ toString maxSpotPrice ++
        "/hour" ]
  else
    ("💰 Current spot prices for " ++ instanceType ++ ":")
      :: ((zone_prices.mergeSort (fun a b => a.1 ≤ b.1)).map
            (zone_price_line maxSpotPrice))
      ++ [ "Configured max price: $" ++ toString maxSpotPrice ++ "/hour"
         , "  • 1 hour of generation:  $" ++ toString maxSpotPrice
         , "  • 4 hours of generation: $" ++ toString (maxSpotPrice * 4)
         , "  • 8 hours of generation: $" ++ toString (maxSpotPrice * 8) ]

/-- An ingress rule as passed to authorize_security_group_ingress. -/
structure IngressRule where
  ipProtocol : String
  fromPort : Nat
  toPort : Nat
  cidrIp : String
  descr : String
deriving Repr, DecidableEq

/-- The single rule added by get_or_create_security_group
(src/launcher.py lines 256-266). -/
def sshIngressRule : IngressRule :=
  { ipProtocol := "tcp"
    fromPort := 22
    toPort := 22
    cidrIp := "0.0.0.0/0"
    descr := "SSH access" }

/-- Provider-side security-group state: named groups with their ids, the
ingress rules attached per group id, and a counter for fresh ids. -/
structure SgState where
  groups : List (String × String)
  ingress : List (String × IngressRule)
  nextId : Nat
deriving Repr, DecidableEq

/-- describe_security_groups with GroupNames equal to one name
(src/launcher.py lines 237-239): the id of the group with that name, if
any. -/
def describe_security_groups (st : SgState) (name : String) : Option String :=
  (st.groups.find? (fun p => p.1 == name)).map (fun p => p.2)

/-- The observable result of one get_or_create_security_group call: the
group id returned, the provider state afterwards, and how many
create_security_group and authorize_security_group_ingress requests were
issued. -/
structure SgCallResult where
  sgId : String
  state : SgState
  createCalls : Nat
  authorizeCalls : Nat
deriving Repr, DecidableEq

/-- src/launcher.py lines 227-273 (get_or_create_security_group): if the
configured name is found the existing id is returned and nothing is mutated;
on InvalidGroup.NotFound a group is created and the single SSH ingress rule
is authorized before the new id is returned. -/
def get_or_create_security_group (st : SgState) (name : String) : SgCallResult :=
  match describe_security_groups st name with
  | some sgId => { sgId := sgId, state := st, createCalls := 0, authorizeCalls := 0 }
  | none =>
      let sgId := "sg-" ++ toString st.nextId
      { sgId := sgId
        state :=
          { groups := st.groups ++ [(name, sgId)]
            ingress := st.ingress ++ [(sgId, sshIngressRule)]
            nextId := st.nextId + 1 }
        createCalls := 1
        authorizeCalls := 1 }

/-- Provider-side IAM state: roles with their ARNs, existing policy ARNs,
role-policy attachments, and instance-profile names. -/
structure IamState where
  roles : List (String × String)
  policies : List String
  attachments : List (String × String)
  profiles : List String
deriving Repr, DecidableEq

/-- The observable result of one create_iam_role call: the role ARN used, the
provider state afterwards, and how many create_role, create_policy and
create_instance_profile requests were issued. -/
structure IamCallResult where
  roleArn : String
  state : IamState
  createRoleCalls : Nat
  createPolicyCalls : Nat
  createProfileCalls : Nat
deriving Repr, DecidableEq

/-- src/check_aws_readiness.py lines 261-279: get_role, and create_role only
on NoSuchEntity.  Returns the role ARN, the state afterwards, and the number
of create_role requests issued. -/
def ensure_role (st : IamState) (accountId roleName : String) :
    String × IamState × Nat :=
  match (st.roles.find? (fun p => p.1 == roleName)).map (fun p => p.2) with
  | some arn => (arn, st, 0)
  | none =>
      let arn := "arn:aws:iam::" ++ accountId ++ ":role/" ++ roleName
      (arn, { st with roles := st.roles ++ [(roleName, arn)] }, 1)

/-- src/check_aws_readiness.py lines 281-300: get_policy by ARN, and
create_policy only on NoSuchEntity. -/
def ensure_policy (st : IamState) (policyArn : String) : IamState × Nat :=
  if st.policies.contains policyArn then (st, 0)
  else ({ st with policies := st.policies ++ [policyArn] }, 1)

/-- src/check_aws_readiness.py lines 302-308: attach_role_policy, with
EntityAlreadyExists tolerated (re-attaching an attached policy is a
no-op). -/
def ensure_attachment (st : IamState) (roleName policyArn : String) : IamState :=
  if st.attachments.contains (roleName, policyArn) then st
  else { st with attachments := st.attachments ++ [(roleName, policyArn)] }

/-- src/check_aws_readiness.py lines 310-330: get_instance_profile, and
create_instance_profile plus add_role_to_instance_profile only on
NoSuchEntity. -/
def ensure_profile (st : IamState) (roleName : String) : IamState × Nat :=
  if st.profiles.contains roleName then (st, 0)
  else ({ st with profiles := st.profiles ++ [roleName] }, 1)

/-- src/check_aws_readiness.py lines 219-336 (create_iam_role): the four
check-then-create sub-steps in sequence — role, the role-s3-policy, its
attachment, and the instance profile. -/
def create_iam_role (st : IamState) (accountId roleName : String) : IamCallResult :=
  let er := ensure_role st accountId roleName
  let policyArn :=
    "arn:aws:iam::" ++ accountId ++ ":policy/" ++ roleName ++ "-s3-policy"
  let ep := ensure_policy er.2.1 policyArn
  let st3 := ensure_attachment ep.1 roleName policyArn
  let epr := ensure_profile st3 roleName
  { roleArn := er.1
    state := epr.1
    createRoleCalls := er.2.2
    createPolicyCalls := ep.2
    createProfileCalls := epr.2 }

/-- src/check_aws_readiness.py lines 160-217 (create_s3_bucket), for the
double-run scenario: head_bucket finding the bucket short-circuits to
success with no creation; otherwise the bucket is created.  Returns the
bucket list afterwards and the number of create_bucket requests issued. -/
def create_s3_bucket (buckets : List String) (name : String) :
    List String × Nat :=
  if buckets.contains name then (buckets, 0)
  else (buckets ++ [name], 1)

/-- The TagSpecifications of the spot launch request
(src/launcher.py lines 296-314). -/
def spot_launch_tags (cfg : AWSConfig) : List (String × String) :=
  [("Name", cfg.worker_tag), ("Project", "musicgen-batch"), ("AutoShutdown", "manual")]

/-- The instance the provider creates for a fulfilled spot request: it
carries the request's tag set and instance class; id, state, launch time and
addresses are provider assigned. -/
def spot_launched_instance (cfg : AWSConfig) (id : String) (st : InstState)
    (lt : Option Nat) (pub priv : Option String) : Ec2Instance :=
  { instanceId := id
    state := st
    instanceType := cfg.instance_type
    launchTime := lt
    publicIp := pub
    privateIp := priv
    tags := spot_launch_tags cfg }

/-- Modelled from the spec: the on-demand launcher variant is not present
under src/; spec section 4.4 requires its LaunchSpec tag set to include the
logical worker tag with the fixed configured value (any further tags are
unconstrained). -/
def ondemand_launch_tags (cfg : AWSConfig)
    (extra : List (String × String)) : List (String × String) :=
  ("Name", cfg.worker_tag) :: extra

/-- Modelled from the spec: the instance created by the on-demand launch,
carrying the on-demand tag set. -/
def ondemand_launched_instance (cfg : AWSConfig)
    (extra : List (String × String)) (id : String) (st : InstState)
    (lt : Option Nat) (pub priv : Option String) : Ec2Instance :=
  { instanceId := id
    state := st
    instanceType := cfg.instance_type
    launchTime := lt
    publicIp := pub
    privateIp := priv
    tags := ondemand_launch_tags cfg extra }

/-- The spec's WorkerInstance state enum is Pending, Running, Stopping,
Terminated; these are its non-terminal states. -/
def specNonTerminal (st : InstState) : Prop :=
  st = .pending ∨ st = .running ∨ st = .stopping

/-- The category an AWS error code falls into in the rejection handler of
launch_spot_instance (src/launcher.py lines 354-369): its three
except-branches. -/
inductive RejectionCategory where
  | priceTooLow
  | capacityExhausted
  | other
deriving Repr, DecidableEq

/-- src/launcher.py lines 354-369: which branch of the ClientError handler an
error code selects. -/
def classify_spot_rejection (code : String) : RejectionCategory :=
  if code == "SpotMaxPriceTooLow" then .priceTooLow
  else if code == "InsufficientInstanceCapacity" then .capacityExhausted
  else .other

/-- The operator-facing lines printed by the ClientError handler of
launch_spot_instance (src/launcher.py lines 354-369); numeric formatting is
abbreviated to toString. -/
def spot_rejection_report (cfg : AWSConfig) (code msg : String) : List String :=
  if code == "SpotMaxPriceTooLow" then
    [ "❌ Your max price of $" ++ toString cfg.max_spot_price ++
        "/hour is too low."
    , "Try increasing the max price in your configuration." ]
  else if code == "InsufficientInstanceCapacity" then
    [ "❌ No " ++ cfg.instance_type ++
        " instances available in the current region."
    , "Try again later or consider a different instance type." ]
  else
    [ "Spot request failed: " ++ code ++ " - " ++ msg ]

/-- Outcome of the provider interactions of one launch_spot_instance call:
the security-group step raised a ClientError; the request_spot_instances
call raised a ClientError; the request was submitted and its initial state
observed; or some other Python exception occurred before submission. -/
inductive SpotLaunchOutcome where
  | sgFailure (code msg : String)
  | submitClientError (code msg : String)
  | submitted (requestId : String) (initialState : String)
  | exn (msg : String)
deriving Repr, DecidableEq

/-- The observable result of one launch_spot_instance call: the boolean it
returns, how many request_spot_instances calls were issued, and the
rejection report printed (empty when no ClientError was raised). -/
structure LaunchResult where
  success : Bool
  spotRequestsSubmitted : Nat
  report : List String
deriving Repr, DecidableEq

/-- src/launcher.py lines 275-373 (launch_spot_instance): a ClientError from
the security-group step or from the submission lands in the classification
handler and returns False; a submitted request whose initial state is
"failed" returns False; otherwise True.  Exactly one spot request is
submitted per call on the submission paths, and none otherwise — there is no
retry. -/
def launch_spot_instance (cfg : AWSConfig) : SpotLaunchOutcome → LaunchResult
  | .sgFailure code msg =>
      { success := false, spotRequestsSubmitted := 0
        report := spot_rejection_report cfg code msg }
  | .submitClientError code msg =>
      { success := false, spotRequestsSubmitted := 1
        report := spot_rejection_report cfg code msg }
  | .submitted _ initialState =>
      { success := initialState != "failed", spotRequestsSubmitted := 1
        report := [] }
  | .exn _ =>
      { success := false, spotRequestsSubmitted := 0, report := [] }

/-- A prompt interaction: the operator types a sequence of lines, or sends a
keyboard interrupt while the prompt is waiting. -/
inductive OperatorPrompt where
  | typed (inputs : List String)
  | interrupt
deriving Repr, DecidableEq

/-- A while-True input loop: read lines until one parses, re-prompting on
invalid input; with no parsable line left the process stays blocked on
input. -/
def prompt_loop {α : Type} (parse : String → Option α) :
    List String → Option α
  | [] => none
  | s :: rest =>
      match parse s with
      | some a => some a
      | none => prompt_loop parse rest

/-- Python str.strip: whitespace removed from both ends. -/
def pyStrip (s : String) : String :=
  ⟨((s.data.dropWhile Char.isWhitespace).reverse.dropWhile
      Char.isWhitespace).reverse⟩

/-- Python str.lower (over the ASCII inputs the prompts compare against). -/
def pyLower (s : String) : String :=
  ⟨s.data.map Char.toLower⟩

/-- src/launcher.py lines 218-225 (get_user_confirmation loop body): yes/y
confirms, no/n declines, anything else re-prompts. -/
def parseYesNo (s : String) : Option Bool :=
  let t := pyLower (pyStrip s)
  if t == "yes" || t == "y" then some true
  else if t == "no" || t == "n" then some false
  else none

/-- The choice offered when existing instances are found
(src/launcher.py lines 398-407): 1 launches an additional instance, 2 exits
to use the existing ones. -/
inductive DupChoice where
  | continueAnyway
  | useExisting
deriving Repr, DecidableEq

/-- src/launcher.py lines 398-407 (the duplicate-instance prompt body). -/
def parseDupChoice (s : String) : Option DupChoice :=
  let t := pyStrip s
  if t == "1" then some .continueAnyway
  else if t == "2" then some .useExisting
  else none

/-- How one run of the launcher process ends: sys.exit with a code, normal
completion (process exit status 0), or blocked forever awaiting input. -/
inductive RunOutcome where
  | exited (code : Nat)
  | completed
  | blocked
deriving Repr, DecidableEq

/-- The environment of one run: outcomes of the permission probes, the
account instances and the registry call, the two prompts, the pricing call,
and the launch interaction. -/
structure Env where
  probeInstances : ApiCall Unit
  probeSpotPrices : ApiCall Unit
  acct : List Ec2Instance
  registryCall : ApiCall Unit
  dupPrompt : OperatorPrompt
  priceCall : ApiCall (List SpotPriceRecord)
  confirmPrompt : OperatorPrompt
  launchOutcome : SpotLaunchOutcome
deriving Repr, DecidableEq

/-- src/launcher.py lines 414-431 and 433-438: the cost-confirmation prompt
and the launch.  A keyboard interrupt is caught by the run handler and exits
with code 1; a decline exits with code 0; on confirmation the launch result
decides between normal completion and exit code 1. -/
def run_from_confirmation (cfg : AWSConfig) (confirmPrompt : OperatorPrompt)
    (launchOutcome : SpotLaunchOutcome) : RunOutcome :=
  match confirmPrompt with
  | .interrupt => .exited 1
  | .typed inputs =>
      match prompt_loop parseYesNo inputs with
      | none => .blocked
      | some false => .exited 0
      | some true =>
          if (launch_spot_instance cfg launchOutcome).success then .completed
          else .exited 1

/-- src/launcher.py lines 409-431: spot prices are fetched and displayed
(display only — they do not gate the flow), then the confirmation phase
runs. -/
def run_from_pricing (cfg : AWSConfig) (priceCall : ApiCall (List SpotPriceRecord))
    (confirmPrompt : OperatorPrompt) (launchOutcome : SpotLaunchOutcome) :
    RunOutcome :=
  let zone_prices := get_current_spot_prices priceCall
  let _displayed :=
    display_spot_prices cfg.max_spot_price cfg.instance_type zone_prices
  run_from_confirmation cfg confirmPrompt launchOutcome

/-- src/launcher.py lines 388-431: the registry is queried; with matches the
duplicate-instance prompt runs (interrupt exits 1, choice 2 exits 0, choice 1
continues); then the pricing and confirmation phases. -/
def run_from_registry (cfg : AWSConfig) (env : Env) : RunOutcome :=
  let existing := check_existing_instances cfg.worker_tag env.acct env.registryCall
  if existing.isEmpty then
    run_from_pricing cfg env.priceCall env.confirmPrompt env.launchOutcome
  else
    match env.dupPrompt with
    | .interrupt => .exited 1
    | .typed inputs =>
        match prompt_loop parseDupChoice inputs with
        | none => .blocked
        | some .useExisting => .exited 0
        | some .continueAnyway =>
            run_from_pricing cfg env.priceCall env.confirmPrompt env.launchOutcome

/-- src/launcher.py lines 375-438 (run): the permission gate, then the
registry, pricing, confirmation and launch phases. -/
def run (cfg : AWSConfig) (env : Env) : RunOutcome :=
  if check_aws_permissions env.probeInstances env.probeSpotPrices then
    run_from_registry cfg env
  else .exited 1

/-! Concrete provider responses and environments used to evaluate the
definitions at specific inputs. -/

/-- A spot-price history whose second sample for the zone is the more recent
one (timestamp 200 against 100). -/
def exHistory5 : List SpotPriceRecord :=
  [ { availabilityZone := "us-east-1a", spotPrice := 1, timestamp := 100 }
  , { availabilityZone := "us-east-1a", spotPrice := 2, timestamp := 200 } ]

/-- A running instance tagged as a worker. -/
def workerRunningInstance : Ec2Instance :=
  { instanceId := "i-0run"
    state := .running
    instanceType := "g4dn.xlarge"
    launchTime := some 10
    publicIp := some "1.2.3.4"
    privateIp := some "10.0.0.1"
    tags := [("Name", "musicgen-batch-worker")] }

/-- A terminated instance that still carries the worker tag. -/
def termInst : Ec2Instance :=
  { instanceId := "i-9term"
    state := .terminated
    instanceType := "g4dn.xlarge"
    launchTime := some 5
    publicIp := none
    privateIp := none
    tags := [("Name", "musicgen-batch-worker")] }

/-- A run environment in which every provider call succeeds, the account is
empty, the operator confirms, and the spot request is accepted. -/
def baseEnv : Env :=
  { probeInstances := .ok ()
    probeSpotPrices := .ok ()
    acct := []
    registryCall := .ok ()
    dupPrompt := .typed []
    priceCall := .ok []
    confirmPrompt := .typed ["yes"]
    launchOutcome := .submitted "sir-123" "open" }

/-- baseEnv, except that the registry query fails with an authorization
ClientError while a tagged worker is in fact running in the account. -/
def envRegistryAuthFailure : Env :=
  { baseEnv with
      acct := [workerRunningInstance]
      registryCall := .clientError "UnauthorizedOperation" "not authorized" }

/-- baseEnv, except that the operator declines the cost confirmation. -/
def envDecline : Env :=
  { baseEnv with confirmPrompt := .typed ["no"] }

/-- baseEnv with an existing worker, where the operator elects to use the
existing instances (choice 2). -/
def envUseExisting : Env :=
  { baseEnv with
      acct := [workerRunningInstance]
      dupPrompt := .typed ["2"] }

/-- baseEnv, except that the cost confirmation prompt is interrupted. -/
def envConfirmInterrupt : Env :=
  { baseEnv with confirmPrompt := .interrupt }

/-- baseEnv with an existing worker, where the duplicate-instance prompt is
interrupted. -/
def envDupInterrupt : Env :=
  { baseEnv with
      acct := [workerRunningInstance]
      dupPrompt := .interrupt }

/-- baseEnv, except that the first permission probe fails with a
non-authorization provider error code. -/
def envRateLimited : Env :=
  { baseEnv with probeInstances := .clientError "RequestLimitExceeded" "slow down" }

/-- An empty security-group account state. -/
def sg0 : SgState :=
  { groups := [], ingress := [], nextId := 0 }

/-- An empty IAM account state. -/
def iam0 : IamState :=
  { roles := [], policies := [], attachments := [], profiles := [] }


/-! Theorems: C6 and C1. -/

/-- Claim C6: check_existing_instances returns only instances whose state is
in the active filter set (pending, running, stopping); an instance whose
state is terminated or shutting-down is never included, regardless of its
tags. -/
theorem C6_registry_excludes_terminal (workerTag : String)
    (acct : List Ec2Instance) (call : ApiCall Unit) :
    (∀ info ∈ check_existing_instances workerTag acct call,
        info.state ∈ activeStateFilter) ∧
    (∀ i ∈ acct, (i.state = InstState.terminated ∨ i.state = InstState.shuttingDown) →
        instanceInfoOf i ∉ check_existing_instances workerTag acct call) := by
  have key : ∀ info ∈ check_existing_instances workerTag acct call,
      info.state ∈ activeStateFilter := by
    intro info hinfo
    cases call with
    | clientError code msg => simp [check_existing_instances] at hinfo
    | exn msg => simp [check_existing_instances] at hinfo
    | ok a =>
        simp only [check_existing_instances, List.mem_map, List.mem_filter] at hinfo
        obtain ⟨i, ⟨hi, hmatch⟩, rfl⟩ := hinfo
        have h2 : activeStateFilter.contains i.state.name = true := by
          have := hmatch
          unfold matchesWorkerFilters at this
          exact (Bool.and_eq_true _ _ |>.mp this).2
        have : i.state.name ∈ activeStateFilter := by
          simpa using h2
        simpa [instanceInfoOf] using this
  refine ⟨key, ?_⟩
  intro i hi hterm hmem
  have h1 := key _ hmem
  rcases hterm with h | h <;>
    simp [instanceInfoOf, InstState.name, activeStateFilter, h] at h1

/-- Claim C6 witness: a terminated instance carrying the worker tag is not
returned. -/
theorem C6_witness :
    instanceInfoOf termInst ∉
      check_existing_instances "musicgen-batch-worker" [termInst] (.ok ()) :=
  (C6_registry_excludes_terminal "musicgen-batch-worker" [termInst] (.ok ())).2
    termInst (by simp) (Or.inl rfl)

/-- Claim C1 counterexample: on an authorization ClientError the registry
query returns the empty list — the same value as a successful no-match query,
with no error surfaced — and a full run whose registry call fails with
UnauthorizedOperation (while a tagged worker is actually running) proceeds
all the way to a successful launch instead of halting. -/
theorem C1_counterexample :
    check_existing_instances "musicgen-batch-worker" []
        (.clientError "UnauthorizedOperation" "not authorized") = [] ∧
    check_existing_instances "musicgen-batch-worker" [] (.ok ()) = [] ∧
    run defaultConfig envRegistryAuthFailure = RunOutcome.completed := by
  refine ⟨rfl, rfl, ?_⟩
  decide

/-- Claim C1 (amended): check_existing_instances returns the empty list both
on a successful no-match query and on any failing query (ClientError of any
code, authorization included, and any other exception); the caller does not
halt but proceeds to the pricing and confirmation phases as if no instances
existed. -/
theorem C1_amended_registry_errors_swallowed
    (workerTag code msg emsg : String) (acct : List Ec2Instance)
    (cfg : AWSConfig) (env : Env)
    (hreg : env.registryCall = .clientError code msg)
    (hperm : check_aws_permissions env.probeInstances env.probeSpotPrices = true) :
    check_existing_instances workerTag acct (.clientError code msg) = [] ∧
    check_existing_instances workerTag acct (.exn emsg) = [] ∧
    run cfg env =
      run_from_pricing cfg env.priceCall env.confirmPrompt env.launchOutcome := by
  refine ⟨rfl, rfl, ?_⟩
  simp [run, hperm, run_from_registry, check_existing_instances, hreg]

/-- Claim C1 witness: the amended behavior at the concrete failing
environment. -/
theorem C1_amended_witness :
    check_existing_instances "musicgen-batch-worker" []
        (.clientError "UnauthorizedOperation" "not authorized") = [] ∧
    check_existing_instances "musicgen-batch-worker" [] (.exn "boom") = [] ∧
    run defaultConfig envRegistryAuthFailure =
      run_from_pricing defaultConfig envRegistryAuthFailure.priceCall
        envRegistryAuthFailure.confirmPrompt envRegistryAuthFailure.launchOutcome :=
  C1_amended_registry_errors_swallowed "musicgen-batch-worker"
    "UnauthorizedOperation" "not authorized" "boom" [] defaultConfig
    envRegistryAuthFailure rfl rfl

/-! Theorems: C2 and C3. -/

/-- Claim C2: the tag set of every launch — the spot request's
TagSpecifications, and the spec-modelled on-demand variant — includes the
Name tag with the exact configured worker-tag value, and the instance
created by either launch is returned by a subsequent check_existing_instances
query while it is in a non-terminal state of the spec's WorkerInstance enum
(pending, running, stopping). -/
theorem C2_launch_tags_discoverable (cfg : AWSConfig) (id : String)
    (st : InstState) (lt : Option Nat) (pub priv : Option String)
    (extra : List (String × String)) (acct : List Ec2Instance)
    (h : specNonTerminal st) :
    (spot_launch_tags cfg).contains ("Name", cfg.worker_tag) = true ∧
    (ondemand_launch_tags cfg extra).contains ("Name", cfg.worker_tag) = true ∧
    instanceInfoOf (spot_launched_instance cfg id st lt pub priv) ∈
      check_existing_instances cfg.worker_tag
        (acct ++ [spot_launched_instance cfg id st lt pub priv]) (.ok ()) ∧
    instanceInfoOf (ondemand_launched_instance cfg extra id st lt pub priv) ∈
      check_existing_instances cfg.worker_tag
        (acct ++ [ondemand_launched_instance cfg extra id st lt pub priv]) (.ok ()) := by
  have hstate : activeStateFilter.contains st.name = true := by
    rcases h with h | h | h <;> subst h <;> rfl
  refine ⟨by simp [spot_launch_tags], by simp [ondemand_launch_tags], ?_, ?_⟩
  · simp only [check_existing_instances, List.mem_map]
    refine ⟨spot_launched_instance cfg id st lt pub priv, ?_, rfl⟩
    rw [List.mem_filter]
    refine ⟨by simp, ?_⟩
    unfold matchesWorkerFilters
    rw [Bool.and_eq_true]
    refine ⟨by simp [spot_launched_instance, spot_launch_tags], ?_⟩
    simpa [spot_launched_instance] using hstate
  · simp only [check_existing_instances, List.mem_map]
    refine ⟨ondemand_launched_instance cfg extra id st lt pub priv, ?_, rfl⟩
    rw [List.mem_filter]
    refine ⟨by simp, ?_⟩
    unfold matchesWorkerFilters
    rw [Bool.and_eq_true]
    refine ⟨by simp [ondemand_launched_instance, ondemand_launch_tags], ?_⟩
    simpa [ondemand_launched_instance] using hstate

/-- Claim C2 witness: a spot-launched running instance is discovered by the
registry query under the default configuration. -/
theorem C2_witness :
    instanceInfoOf (spot_launched_instance defaultConfig "i-9" .running none none none) ∈
      check_existing_instances defaultConfig.worker_tag
        ([] ++ [spot_launched_instance defaultConfig "i-9" .running none none none])
        (.ok ()) :=
  ((C2_launch_tags_discoverable defaultConfig "i-9" .running none none none [] []
      (Or.inr (Or.inl rfl))).2.2).1

/-- Claim C3 counterexample: the rejection handler has no authorization
category — an authorization error code is classified as other, and its
report is the raw message, with no identity-policy recommendation. -/
theorem C3_counterexample :
    classify_spot_rejection "UnauthorizedOperation" = RejectionCategory.other ∧
    classify_spot_rejection "AccessDenied" = RejectionCategory.other ∧
    spot_rejection_report defaultConfig "AccessDenied" "denied" =
      ["Spot request failed: AccessDenied - denied"] := by
  refine ⟨rfl, rfl, rfl⟩

/-- Claim C3 (amended): provider rejections are classified into exactly three
categories — SpotMaxPriceTooLow as price-too-low, InsufficientInstanceCapacity
as capacity-exhausted, and every other code (authorization codes included) as
other, surfacing the raw message — and on a rejection the engine returns
failure after exactly one spot request with no retry, so the run exits with
code 1. -/
theorem C3_amended_three_way_classification (cfg : AWSConfig) (code msg : String)
    (hc1 : code ≠ "SpotMaxPriceTooLow")
    (hc2 : code ≠ "InsufficientInstanceCapacity") :
    classify_spot_rejection "SpotMaxPriceTooLow" = RejectionCategory.priceTooLow ∧
    classify_spot_rejection "InsufficientInstanceCapacity" =
      RejectionCategory.capacityExhausted ∧
    classify_spot_rejection code = RejectionCategory.other ∧
    (launch_spot_instance cfg (.submitClientError code msg)).success = false ∧
    (launch_spot_instance cfg (.submitClientError code msg)).spotRequestsSubmitted = 1 ∧
    run_from_confirmation cfg (.typed ["yes"]) (.submitClientError code msg) =
      RunOutcome.exited 1 := by
  refine ⟨rfl, rfl, ?_, rfl, rfl, rfl⟩
  have h1 : (code == "SpotMaxPriceTooLow") = false := by
    simpa using hc1
  have h2 : (code == "InsufficientInstanceCapacity") = false := by
    simpa using hc2
  simp [classify_spot_rejection, h1, h2]

/-- Claim C3 witness: the amended classification and run termination at a
concrete unrecognized (authorization) error code. -/
theorem C3_witness :
    classify_spot_rejection "SpotMaxPriceTooLow" = RejectionCategory.priceTooLow ∧
    classify_spot_rejection "InsufficientInstanceCapacity" =
      RejectionCategory.capacityExhausted ∧
    classify_spot_rejection "UnauthorizedOperation" = RejectionCategory.other ∧
    (launch_spot_instance defaultConfig
        (.submitClientError "UnauthorizedOperation" "no")).success = false ∧
    (launch_spot_instance defaultConfig
        (.submitClientError "UnauthorizedOperation" "no")).spotRequestsSubmitted = 1 ∧
    run_from_confirmation defaultConfig (.typed ["yes"])
        (.submitClientError "UnauthorizedOperation" "no") = RunOutcome.exited 1 :=
  C3_amended_three_way_classification defaultConfig "UnauthorizedOperation" "no"
    (by decide) (by decide)

/-! Theorems: C4 and C10 — idempotent provisioning. -/

/-- After one ensure of the security group, lookup by the group name finds
the id that call returned. -/
theorem describe_after_ensure (st : SgState) (name : String) :
    describe_security_groups (get_or_create_security_group st name).state name =
      some (get_or_create_security_group st name).sgId := by
  cases h : describe_security_groups st name with
  | some id =>
      unfold get_or_create_security_group
      rw [h]
      exact h
  | none =>
      have hfind : st.groups.find? (fun p => p.1 == name) = none := by
        unfold describe_security_groups at h
        cases hf : st.groups.find? (fun p => p.1 == name) with
        | none => rfl
        | some v => rw [hf] at h; simp at h
      unfold get_or_create_security_group
      rw [h]
      simp [describe_security_groups, List.find?_append, hfind, List.find?]

/-- A found role short-circuits ensure_role. -/
theorem ensure_role_found (st : IamState) (a r arn : String)
    (h : (st.roles.find? (fun p => p.1 == r)).map (fun p => p.2) = some arn) :
    ensure_role st a r = (arn, st, 0) := by
  unfold ensure_role
  rw [h]

/-- After ensure_role, lookup by role name yields the ARN it returned. -/
theorem ensure_role_find_after (st : IamState) (a r : String) :
    ((ensure_role st a r).2.1.roles.find? (fun p => p.1 == r)).map (fun p => p.2) =
      some (ensure_role st a r).1 := by
  cases h : (st.roles.find? (fun p => p.1 == r)).map (fun p => p.2) with
  | some arn =>
      rw [ensure_role_found st a r arn h]
      exact h
  | none =>
      have hfind : st.roles.find? (fun p => p.1 == r) = none := by
        cases hf : st.roles.find? (fun p => p.1 == r) with
        | none => rfl
        | some v => rw [hf] at h; simp at h
      unfold ensure_role
      rw [h]
      simp [List.find?_append, hfind, List.find?]

/-- After ensure_policy, the policy ARN is present. -/
theorem ensure_policy_contains_after (st : IamState) (p : String) :
    (ensure_policy st p).1.policies.contains p = true := by
  unfold ensure_policy
  cases h : st.policies.contains p with
  | true => simpa using h
  | false => simp

/-- A present policy short-circuits ensure_policy. -/
theorem ensure_policy_found (st : IamState) (p : String)
    (h : st.policies.contains p = true) :
    ensure_policy st p = (st, 0) := by
  have hm : p ∈ st.policies := by simpa using h
  simp [ensure_policy, hm]

/-- After ensure_attachment, the attachment is present. -/
theorem ensure_attachment_contains_after (st : IamState) (r p : String) :
    (ensure_attachment st r p).attachments.contains (r, p) = true := by
  unfold ensure_attachment
  cases h : st.attachments.contains (r, p) with
  | true => simpa using h
  | false => simp

/-- A present attachment makes ensure_attachment a no-op. -/
theorem ensure_attachment_found (st : IamState) (r p : String)
    (h : st.attachments.contains (r, p) = true) :
    ensure_attachment st r p = st := by
  have hm : (r, p) ∈ st.attachments := by simpa using h
  simp [ensure_attachment, hm]

/-- After ensure_profile, the instance profile is present. -/
theorem ensure_profile_contains_after (st : IamState) (r : String) :
    (ensure_profile st r).1.profiles.contains r = true := by
  unfold ensure_profile
  cases h : st.profiles.contains r with
  | true => simpa using h
  | false => simp

/-- A present instance profile short-circuits ensure_profile. -/
theorem ensure_profile_found (st : IamState) (r : String)
    (h : st.profiles.contains r = true) :
    ensure_profile st r = (st, 0) := by
  have hm : r ∈ st.profiles := by simpa using h
  simp [ensure_profile, hm]

/-- ensure_policy does not touch roles, attachments or profiles. -/
theorem ensure_policy_preserves (st : IamState) (p : String) :
    (ensure_policy st p).1.roles = st.roles ∧
    (ensure_policy st p).1.attachments = st.attachments ∧
    (ensure_policy st p).1.profiles = st.profiles := by
  unfold ensure_policy
  cases h : st.policies.contains p <;> simp

/-- ensure_attachment does not touch roles, policies or profiles. -/
theorem ensure_attachment_preserves (st : IamState) (r p : String) :
    (ensure_attachment st r p).roles = st.roles ∧
    (ensure_attachment st r p).policies = st.policies ∧
    (ensure_attachment st r p).profiles = st.profiles := by
  unfold ensure_attachment
  cases h : st.attachments.contains (r, p) <;> simp

/-- ensure_profile does not touch roles, policies or attachments. -/
theorem ensure_profile_preserves (st : IamState) (r : String) :
    (ensure_profile st r).1.roles = st.roles ∧
    (ensure_profile st r).1.policies = st.policies ∧
    (ensure_profile st r).1.attachments = st.attachments := by
  unfold ensure_profile
  cases h : st.profiles.contains r <;> simp

/-- A found security group short-circuits get_or_create_security_group. -/
theorem get_or_create_sg_found (st : SgState) (name sgId : String)
    (h : describe_security_groups st name = some sgId) :
    get_or_create_security_group st name =
      { sgId := sgId, state := st, createCalls := 0, authorizeCalls := 0 } := by
  unfold get_or_create_security_group
  rw [h]

/-- When every IAM sub-entity is already present, create_iam_role returns
the stored ARN, mutates nothing, and issues no creation call. -/
theorem create_iam_role_found (st : IamState) (a r arn : String)
    (h1 : (st.roles.find? (fun p => p.1 == r)).map (fun p => p.2) = some arn)
    (h2 : st.policies.contains
      ("arn:aws:iam::" ++ a ++ ":policy/" ++ r ++ "-s3-policy") = true)
    (h3 : st.attachments.contains
      (r, "arn:aws:iam::" ++ a ++ ":policy/" ++ r ++ "-s3-policy") = true)
    (h4 : st.profiles.contains r = true) :
    create_iam_role st a r =
      { roleArn := arn, state := st, createRoleCalls := 0
        createPolicyCalls := 0, createProfileCalls := 0 } := by
  simp only [create_iam_role, ensure_role_found st a r arn h1,
    ensure_policy_found st _ h2, ensure_attachment_found st r _ h3,
    ensure_profile_found st r h4]

/-- After one create_iam_role call, every sub-entity is present in the
resulting state. -/
theorem create_iam_role_state_ready (ist : IamState) (a r : String) :
    (((create_iam_role ist a r).state.roles.find? (fun p => p.1 == r)).map
        (fun p => p.2) = some (create_iam_role ist a r).roleArn) ∧
    (create_iam_role ist a r).state.policies.contains
      ("arn:aws:iam::" ++ a ++ ":policy/" ++ r ++ "-s3-policy") = true ∧
    (create_iam_role ist a r).state.attachments.contains
      (r, "arn:aws:iam::" ++ a ++ ":policy/" ++ r ++ "-s3-policy") = true ∧
    (create_iam_role ist a r).state.profiles.contains r = true := by
  simp only [create_iam_role]
  refine ⟨?_, ?_, ?_, ?_⟩
  · rw [(ensure_profile_preserves _ _).1, (ensure_attachment_preserves _ _ _).1,
        (ensure_policy_preserves _ _).1]
    exact ensure_role_find_after ist a r
  · rw [(ensure_profile_preserves _ _).2.1, (ensure_attachment_preserves _ _ _).2.1]
    exact ensure_policy_contains_after _ _
  · rw [(ensure_profile_preserves _ _).2.2]
    exact ensure_attachment_contains_after _ _ _
  · exact ensure_profile_contains_after _ _

/-- Claim C4: for each logical resource — security group, IAM
role/policy/attachment/profile, storage bucket — a second ensure call in
sequence returns the same provider id, issues no creation (and for the
security group no ingress-authorization) request, and leaves the provider
state of the first call unchanged. -/
theorem C4_idempotent_provisioning (st : SgState) (name : String)
    (ist : IamState) (accountId roleName : String)
    (buckets : List String) (bname : String) :
    get_or_create_security_group (get_or_create_security_group st name).state name =
      { sgId := (get_or_create_security_group st name).sgId
        state := (get_or_create_security_group st name).state
        createCalls := 0, authorizeCalls := 0 } ∧
    create_iam_role (create_iam_role ist accountId roleName).state accountId roleName =
      { roleArn := (create_iam_role ist accountId roleName).roleArn
        state := (create_iam_role ist accountId roleName).state
        createRoleCalls := 0, createPolicyCalls := 0, createProfileCalls := 0 } ∧
    create_s3_bucket (create_s3_bucket buckets bname).1 bname =
      ((create_s3_bucket buckets bname).1, 0) := by
  refine ⟨?_, ?_, ?_⟩
  · exact get_or_create_sg_found _ name _ (describe_after_ensure st name)
  · obtain ⟨h1, h2, h3, h4⟩ := create_iam_role_state_ready ist accountId roleName
    exact create_iam_role_found _ accountId roleName _ h1 h2 h3 h4
  · by_cases h : bname ∈ buckets <;> simp [create_s3_bucket, h]

/-- Claim C10: when the configured group name is not found, exactly one
security group is created and exactly one ingress rule — TCP port 22 open to
0.0.0.0/0 — is authorized on the new group id; when the name is found, the
existing id is returned with the state unmodified and no rule added. -/
theorem C10_ssh_ingress_rule (st : SgState) (name : String) :
    (describe_security_groups st name = none →
      get_or_create_security_group st name =
        { sgId := "sg-" ++ toString st.nextId
          state :=
            { groups := st.groups ++ [(name, "sg-" ++ toString st.nextId)]
              ingress := st.ingress ++
                [("sg-" ++ toString st.nextId, sshIngressRule)]
              nextId := st.nextId + 1 }
          createCalls := 1, authorizeCalls := 1 }) ∧
    (∀ sgId, describe_security_groups st name = some sgId →
      get_or_create_security_group st name =
        { sgId := sgId, state := st, createCalls := 0, authorizeCalls := 0 }) ∧
    sshIngressRule.ipProtocol = "tcp" ∧ sshIngressRule.fromPort = 22 ∧
    sshIngressRule.toPort = 22 ∧ sshIngressRule.cidrIp = "0.0.0.0/0" := by
  refine ⟨?_, ?_, rfl, rfl, rfl, rfl⟩
  · intro h
    unfold get_or_create_security_group
    rw [h]
  · intro sgId h
    exact get_or_create_sg_found st name sgId h

/-- Claim C10 witness: creating from an empty account authorizes exactly the
single SSH rule on the fresh group id. -/
theorem C10_witness :
    get_or_create_security_group sg0 "musicgen-worker-sg" =
      { sgId := "sg-" ++ toString sg0.nextId
        state :=
          { groups := sg0.groups ++ [("musicgen-worker-sg", "sg-" ++ toString sg0.nextId)]
            ingress := sg0.ingress ++ [("sg-" ++ toString sg0.nextId, sshIngressRule)]
            nextId := sg0.nextId + 1 }
        createCalls := 1, authorizeCalls := 1 } :=
  (C10_ssh_ingress_rule sg0 "musicgen-worker-sg").1 rfl

/-! Theorems: C5 — spot price retention. -/

/-- An entry already retained for a zone survives the rest of the loop. -/
theorem zone_prices_loop_find_of_found (z : String) (v : String × Rat) :
    ∀ (rest : List SpotPriceRecord) (acc : List (String × Rat)),
      acc.find? (fun p => p.1 == z) = some v →
      (zone_prices_loop acc rest).find? (fun p => p.1 == z) = some v := by
  intro rest
  induction rest with
  | nil => intro acc h; simpa [zone_prices_loop] using h
  | cons r rest ih =>
      intro acc h
      by_cases hany : acc.any (fun p => p.1 == r.availabilityZone) = true
      · rw [zone_prices_loop, if_pos hany]
        exact ih acc h
      · rw [zone_prices_loop, if_neg hany]
        apply ih
        rw [List.find?_append, h]
        rfl

/-- With no entry retained for a zone yet, the loop retains the first sample
for that zone in response order. -/
theorem zone_prices_loop_find_of_none (z : String) :
    ∀ (rest : List SpotPriceRecord) (acc : List (String × Rat)),
      acc.find? (fun p => p.1 == z) = none →
      (zone_prices_loop acc rest).find? (fun p => p.1 == z) =
        (rest.find? (fun r => r.availabilityZone == z)).map
          (fun r => (r.availabilityZone, r.spotPrice)) := by
  intro rest
  induction rest with
  | nil => intro acc h; simpa [zone_prices_loop] using h
  | cons r rest ih =>
      intro acc h
      by_cases hz : r.availabilityZone = z
      · subst hz
        by_cases hany : acc.any (fun p => p.1 == r.availabilityZone) = true
        · exfalso
          rw [List.any_eq_true] at hany
          obtain ⟨p, hp, hpz⟩ := hany
          have := List.find?_eq_none.mp h p hp
          exact this hpz
        · rw [zone_prices_loop, if_neg hany]
          have hfound :
              (acc ++ [(r.availabilityZone, r.spotPrice)]).find?
                (fun p => p.1 == r.availabilityZone) =
                some (r.availabilityZone, r.spotPrice) := by
            rw [List.find?_append, h]
            simp [List.find?]
          rw [zone_prices_loop_find_of_found r.availabilityZone
                (r.availabilityZone, r.spotPrice) rest
                (acc ++ [(r.availabilityZone, r.spotPrice)]) hfound]
          simp [List.find?]
      · have hne : (r.availabilityZone == z) = false := by
          simpa using hz
        by_cases hany : acc.any (fun p => p.1 == r.availabilityZone) = true
        · rw [zone_prices_loop, if_pos hany, ih acc h]
          simp [List.find?, hne]
        · rw [zone_prices_loop, if_neg hany]
          have hstill :
              (acc ++ [(r.availabilityZone, r.spotPrice)]).find?
                (fun p => p.1 == z) = none := by
            rw [List.find?_append, h]
            simp [List.find?, hne]
          rw [ih _ hstill]
          simp [List.find?, hne]

/-- Claim C5 counterexample: in a response whose later sample for the zone is
the more recent one, the code retains the earlier sample's price (the first
in response order), not the latest-timestamp price demanded by the claim. -/
theorem C5_counterexample :
    get_current_spot_prices (.ok exHistory5) = [("us-east-1a", (1 : Rat))] ∧
    spec_latest_price_for_zone exHistory5 "us-east-1a" = some (2 : Rat) ∧
    ((1 : Rat) ≠ (2 : Rat)) := by
  refine ⟨by decide, by decide, by decide⟩

/-- Claim C5 (amended): for every response, the price retained for each zone
is that of the first sample for that zone in response order (the code assumes
the provider lists the most recent first); a failing query yields the empty
result. -/
theorem C5_amended_first_sample_per_zone (history : List SpotPriceRecord)
    (z code msg emsg : String) :
    (get_current_spot_prices (.ok history)).find? (fun p => p.1 == z) =
      (history.find? (fun r => r.availabilityZone == z)).map
        (fun r => (r.availabilityZone, r.spotPrice)) ∧
    get_current_spot_prices (.clientError code msg) = [] ∧
    get_current_spot_prices (.exn emsg) = [] := by
  refine ⟨?_, rfl, rfl⟩
  exact zone_prices_loop_find_of_none z history [] rfl

/-! Theorems: C7, C8, C9 — run flow. -/

/-- Claim C7: a failing or empty spot price query yields an empty result
without raising; display_spot_prices on an empty result prints the fallback
pair naming the operator-configured maximum price; and the pricing phase
never gates the flow — for every pricing outcome the run proceeds to the
confirmation and launch phase. -/
theorem C7_pricing_failure_never_blocks (cfg : AWSConfig)
    (code msg emsg : String) (cp : OperatorPrompt) (lo : SpotLaunchOutcome)
    (history : List SpotPriceRecord) :
    get_current_spot_prices (.clientError code msg) = [] ∧
    get_current_spot_prices (.exn emsg) = [] ∧
    get_current_spot_prices (.ok []) = [] ∧
    display_spot_prices cfg.max_spot_price cfg.instance_type [] =
      [ "⚠️  Could not retrieve current spot prices."
      , "Proceeding with configured max price: $" ++
          toString cfg.max_spot_price ++ "/hour" ] ∧
    run_from_pricing cfg (.clientError code msg) cp lo =
      run_from_confirmation cfg cp lo ∧
    run_from_pricing cfg (.exn emsg) cp lo = run_from_confirmation cfg cp lo ∧
    run_from_pricing cfg (.ok history) cp lo = run_from_confirmation cfg cp lo :=
  ⟨rfl, rfl, rfl, rfl, rfl, rfl, rfl⟩

/-- Claim C8: declining the cost confirmation and electing to use the
existing instances both end the process with exit code 0 (no action taken,
success), while a keyboard interrupt at either prompt ends it with exit code
1 — and the two exit codes are distinct. -/
theorem C8_decline_exits_zero_interrupt_one (cfg : AWSConfig) :
    (∀ (env : Env) (cIn : List String),
      check_aws_permissions env.probeInstances env.probeSpotPrices = true →
      (check_existing_instances cfg.worker_tag env.acct env.registryCall).isEmpty
        = true →
      env.confirmPrompt = OperatorPrompt.typed cIn →
      prompt_loop parseYesNo cIn = some false →
      run cfg env = RunOutcome.exited 0) ∧
    (∀ (env : Env) (dIn : List String),
      check_aws_permissions env.probeInstances env.probeSpotPrices = true →
      (check_existing_instances cfg.worker_tag env.acct env.registryCall).isEmpty
        = false →
      env.dupPrompt = OperatorPrompt.typed dIn →
      prompt_loop parseDupChoice dIn = some DupChoice.useExisting →
      run cfg env = RunOutcome.exited 0) ∧
    (∀ env : Env,
      check_aws_permissions env.probeInstances env.probeSpotPrices = true →
      (check_existing_instances cfg.worker_tag env.acct env.registryCall).isEmpty
        = true →
      env.confirmPrompt = OperatorPrompt.interrupt →
      run cfg env = RunOutcome.exited 1) ∧
    (∀ env : Env,
      check_aws_permissions env.probeInstances env.probeSpotPrices = true →
      (check_existing_instances cfg.worker_tag env.acct env.registryCall).isEmpty
        = false →
      env.dupPrompt = OperatorPrompt.interrupt →
      run cfg env = RunOutcome.exited 1) ∧
    RunOutcome.exited 0 ≠ RunOutcome.exited 1 := by
  refine ⟨?_, ?_, ?_, ?_, by decide⟩
  · intro env cIn hperm hreg hcp hloop
    simp [run, hperm, run_from_registry, hreg, run_from_pricing,
      run_from_confirmation, hcp, hloop]
  · intro env dIn hperm hreg hdp hloop
    simp [run, hperm, run_from_registry, hreg, hdp, hloop]
  · intro env hperm hreg hcp
    simp [run, hperm, run_from_registry, hreg, run_from_pricing,
      run_from_confirmation, hcp]
  · intro env hperm hreg hdp
    simp [run, hperm, run_from_registry, hreg, hdp]

/-- Claim C8 witness: the four outcomes at concrete environments. -/
theorem C8_witness :
    run defaultConfig envDecline = RunOutcome.exited 0 ∧
    run defaultConfig envUseExisting = RunOutcome.exited 0 ∧
    run defaultConfig envConfirmInterrupt = RunOutcome.exited 1 ∧
    run defaultConfig envDupInterrupt = RunOutcome.exited 1 :=
  ⟨(C8_decline_exits_zero_interrupt_one defaultConfig).1 envDecline ["no"]
      rfl (by decide) rfl (by decide)
  , (C8_decline_exits_zero_interrupt_one defaultConfig).2.1 envUseExisting ["2"]
      rfl (by decide) rfl (by decide)
  , (C8_decline_exits_zero_interrupt_one defaultConfig).2.2.1 envConfirmInterrupt
      rfl (by decide) rfl
  , (C8_decline_exits_zero_interrupt_one defaultConfig).2.2.2.1 envDupInterrupt
      rfl (by decide) rfl⟩

/-- Claim C9: the permission pre-flight returns False exactly when its first
failing probe is a ClientError with code UnauthorizedOperation or
AccessDenied, or a non-ClientError exception; on any other provider error
code it returns True and the run proceeds past the gate, and on False the run
exits with code 1. -/
theorem C9_permission_gate (p1 p2 : ApiCall Unit) :
    (check_aws_permissions p1 p2 = false ↔
      ((∃ msg, effectiveProbe p1 p2 = .clientError "UnauthorizedOperation" msg) ∨
       (∃ msg, effectiveProbe p1 p2 = .clientError "AccessDenied" msg) ∨
       (∃ msg, effectiveProbe p1 p2 = .exn msg))) ∧
    (∀ (cfg : AWSConfig) (env : Env),
      check_aws_permissions env.probeInstances env.probeSpotPrices = true →
      run cfg env = run_from_registry cfg env) ∧
    (∀ (cfg : AWSConfig) (env : Env),
      check_aws_permissions env.probeInstances env.probeSpotPrices = false →
      run cfg env = RunOutcome.exited 1) := by
  refine ⟨?_, ?_, ?_⟩
  · unfold check_aws_permissions
    cases heff : effectiveProbe p1 p2 with
    | ok a => simp
    | exn m => simp
    | clientError code m =>
        by_cases hU : code = "UnauthorizedOperation"
        · subst hU; simp
        · by_cases hA : code = "AccessDenied"
          · subst hA; simp
          · have h1 : (code == "UnauthorizedOperation") = false := by simpa using hU
            have h2 : (code == "AccessDenied") = false := by simpa using hA
            simp [h1, h2, hU, hA]
  · intro cfg env h
    simp [run, h]
  · intro cfg env h
    simp [run, h]

/-- Claim C9 witness: a rate-limit error code from a probe does not halt the
run — the flow proceeds to the registry phase. -/
theorem C9_witness :
    run defaultConfig envRateLimited = run_from_registry defaultConfig envRateLimited :=
  (C9_permission_gate (.clientError "RequestLimitExceeded" "slow down")
    (.ok ())).2.1 defaultConfig envRateLimited rfl

end CloudMusic
